import Mathlib

/-!
Verification of the persistence layer and analytics helpers of the
TicketTrack satisfaction-survey application.

The embedding models the browser `localStorage` slot that the services
serialize into as `Option (List SurveyResponse)`: `none` is the absent key,
`some l` is the key holding the JSON array `l` (the JSON round trip is
assumed faithful).  Stateful service methods become functions
`... → LocalStore → result × LocalStore`.  Timestamps, which the source
computes from the current clock, are opaque strings here.
-/

namespace TicketTrack

/-- Record shape used by `src/services/database/index.ts`, the Dashboard and
the SurveyForm (fields `easeRating`/`processRating`/`solutionRating`). -/
structure SurveyResponse where
  id : String
  ticketId : String
  customerId : String
  easeRating : Nat
  processRating : Nat
  solutionRating : Nat
  comment : String
  timestamp : String
deriving DecidableEq, Repr

/-- The value stored under the database key in localStorage: `none` means the
key is absent, `some l` means it holds the serialized list `l`. -/
abbrev LocalStore := Option (List SurveyResponse)

/-- JavaScript `String.prototype.trim()`: drop leading and trailing
whitespace. -/
def jsTrim (s : String) : String :=
  String.mk
    (((s.data.dropWhile Char.isWhitespace).reverse.dropWhile
        Char.isWhitespace).reverse)

namespace DatabaseService

/-- Seed list of `src/services/database/index.ts` (three sample records);
timestamps are opaque placeholders for the dynamically computed ISO strings. -/
def SEED_DATA : List SurveyResponse :=
  [ { id := "1", ticketId := "1001", customerId := "joao@empresa.com",
      easeRating := 4, processRating := 5, solutionRating := 5,
      comment := "Muito fácil abrir o chamado e o técnico chegou na hora.",
      timestamp := "seed-ts-1" },
    { id := "2", ticketId := "1024", customerId := "maria.s@client.org",
      easeRating := 2, processRating := 3, solutionRating := 4,
      comment := "O sistema de abertura é confuso, mas o técnico resolveu.",
      timestamp := "seed-ts-2" },
    { id := "3", ticketId := "1035", customerId := "admin@tech.net",
      easeRating := 5, processRating := 5, solutionRating := 5,
      comment := "Processo perfeito do início ao fim.",
      timestamp := "seed-ts-3" } ]

/-- `getLocalData`: parse the stored JSON, defaulting to the empty list when
the key is absent. -/
def getLocalData (s : LocalStore) : List SurveyResponse :=
  s.getD []

/-- `setLocalData`: serialize the list into the storage key. -/
def setLocalData (l : List SurveyResponse) : LocalStore :=
  some l

/-- Local branch of `DatabaseService.getAll`: when the parsed collection is
empty it persists and returns the seed set, otherwise it returns the stored
collection unchanged. -/
def getAll (s : LocalStore) : List SurveyResponse × LocalStore :=
  let data := getLocalData s
  if data.length = 0 then (SEED_DATA, setLocalData SEED_DATA)
  else (data, s)

/-- `DatabaseService.checkTicketExists`: reads `getAll` (including its seeding
side effect) and scans for an exact match against the trimmed query. -/
def checkTicketExists (t : String) (s : LocalStore) : Bool × LocalStore :=
  let res := getAll s
  (res.1.any (fun record => record.ticketId == jsTrim t), res.2)

/-- Local branch of `DatabaseService.add`: read-modify-write appending the new
record, returning the record itself. -/
def add (r : SurveyResponse) (s : LocalStore) : SurveyResponse × LocalStore :=
  let currentData := getLocalData s
  (r, setLocalData (currentData ++ [r]))

/-- Local branch of `DatabaseService.remove`: filters out the id and always
reports success. -/
def remove (i : String) (s : LocalStore) : Bool × LocalStore :=
  let currentData := getLocalData s
  (true, setLocalData (currentData.filter (fun item => item.id != i)))

/-- Local branch of `DatabaseService.clear`: stores the empty list and
reports success. -/
def clear (_s : LocalStore) : Bool × LocalStore :=
  (true, setLocalData [])

end DatabaseService

/-- Outcome of the remote fetch in cloud mode, as distinguished by the code:
the fetch throws, the response is non-ok, the JSON is not an array, or a
proper array arrives. -/
inductive RemoteResult where
  | unreachable
  | httpError
  | nonArray
  | arrayPayload (records : List SurveyResponse)
deriving DecidableEq

/-- Error taxonomy of the spec for reads. -/
inductive DBError where
  | connectionError
deriving DecidableEq

/-- Cloud branch of `getAll` in `src/services/database/index.ts`: the `try`
block throws on a non-ok response, but the `catch` swallows every failure,
alerts, and resolves normally with `[]`; a non-array payload also yields `[]`.
The `Except` result records whether an error is propagated to the caller. -/
def getAllCloud : RemoteResult → Except DBError (List SurveyResponse)
  | RemoteResult.unreachable => Except.ok []
  | RemoteResult.httpError => Except.ok []
  | RemoteResult.nonArray => Except.ok []
  | RemoteResult.arrayPayload l => Except.ok l

/-- Cloud branch of `getAll` in the `DatabaseService` embedded in
`src/components/SurveyForm.tsx`: the `catch` silently falls back to the local
data; a non-array payload yields `[]`. -/
def getAllCloudFallback (rr : RemoteResult) (s : LocalStore) :
    Except DBError (List SurveyResponse) :=
  match rr with
  | RemoteResult.unreachable => Except.ok (DatabaseService.getLocalData s)
  | RemoteResult.httpError => Except.ok (DatabaseService.getLocalData s)
  | RemoteResult.nonArray => Except.ok []
  | RemoteResult.arrayPayload l => Except.ok l

namespace dbService

/-- Seed list of `src/services/dbService.ts` (seven sample records). -/
def SEED_DATA : List SurveyResponse :=
  [ { id := "1", ticketId := "1001", customerId := "joao@empresa.com",
      easeRating := 4, processRating := 5, solutionRating := 5,
      comment := "Muito fácil abrir o chamado e o técnico chegou na hora.",
      timestamp := "db-ts-1" },
    { id := "2", ticketId := "1024", customerId := "maria.s@client.org",
      easeRating := 2, processRating := 3, solutionRating := 4,
      comment := "O sistema de abertura é confuso, mas o técnico resolveu.",
      timestamp := "db-ts-2" },
    { id := "3", ticketId := "1035", customerId := "admin@tech.net",
      easeRating := 5, processRating := 5, solutionRating := 5,
      comment := "Processo perfeito do início ao fim.",
      timestamp := "db-ts-3" },
    { id := "4", ticketId := "1042", customerId := "roberto@loja.com",
      easeRating := 1, processRating := 2, solutionRating := 3,
      comment := "Demorei para conseguir abrir o chamado e agendaram errado.",
      timestamp := "db-ts-4" },
    { id := "5", ticketId := "1055", customerId := "ana@startup.io",
      easeRating := 3, processRating := 3, solutionRating := 4,
      comment := "O atendimento foi bom, mas o agendamento demorou.",
      timestamp := "db-ts-5" },
    { id := "6", ticketId := "1068", customerId := "carlos.m@dev.co",
      easeRating := 5, processRating := 4, solutionRating := 5,
      comment := "Rápido e eficiente.",
      timestamp := "db-ts-6" },
    { id := "7", ticketId := "1072", customerId := "julia@design.studio",
      easeRating := 2, processRating := 2, solutionRating := 2,
      comment := "O técnico não trouxe as peças necessárias para a conclusão.",
      timestamp := "db-ts-7" } ]

/-- `dbService.getAll`: seeds only when the storage key is absent (`!stored`);
a stored empty array is returned as-is. -/
def getAll (s : LocalStore) : List SurveyResponse × LocalStore :=
  match s with
  | none => (SEED_DATA, some SEED_DATA)
  | some l => (l, some l)

/-- `dbService.add`: reads the raw stored list (no seeding), appends, persists,
returns the record. -/
def add (r : SurveyResponse) (s : LocalStore) : SurveyResponse × LocalStore :=
  let currentData := s.getD []
  (r, some (currentData ++ [r]))

/-- `dbService.remove`: filters the raw stored list by id, persists, always
returns `true`. -/
def remove (i : String) (s : LocalStore) : Bool × LocalStore :=
  let currentData := s.getD []
  (true, some (currentData.filter (fun item => item.id != i)))

/-- `dbService.clear`: stores the empty array and reports success. -/
def clear (_s : LocalStore) : Bool × LocalStore :=
  (true, some [])

end dbService

/-- Result of a guarded submission: either rejected by the Duplicate Guard or
saved through `add`. -/
inductive SubmitOutcome where
  | rejectedDuplicate
  | saved (r : SurveyResponse)
deriving DecidableEq

/-- Duplicate-Guard step of `handleSubmit` in `SurveyForm.tsx`: the exists
check runs first (with its seeding side effect); a `true` answer rejects the
submission before any insert, otherwise the record is added. -/
def submitWithGuard (r : SurveyResponse) (s : LocalStore) :
    SubmitOutcome × LocalStore :=
  let chk := DatabaseService.checkTicketExists r.ticketId s
  if chk.1 then (SubmitOutcome.rejectedDuplicate, chk.2)
  else
    let res := DatabaseService.add r chk.2
    (SubmitOutcome.saved res.1, res.2)

namespace Dashboard

/-- `metrics.total` of `Dashboard.tsx`. -/
def metricsTotal (filteredData : List SurveyResponse) : Nat :=
  filteredData.length

/-- `metrics.avgEase` of `Dashboard.tsx`: sum of the first rating dimension
divided by the count, `0` for an empty set. -/
def metricsAvgEase (filteredData : List SurveyResponse) : ℚ :=
  if filteredData.length = 0 then 0
  else
    (filteredData.foldl (fun acc cur => acc + (cur.easeRating : ℚ)) 0) /
      (filteredData.length : ℚ)

/-- `.replace(/"/g, '""')` on the character list of a string. -/
def escapeQuotes : List Char → List Char
  | [] => []
  | '"' :: rest => '"' :: '"' :: escapeQuotes rest
  | c :: rest => c :: escapeQuotes rest

/-- `.replace(/(\r\n|\n|\r)/gm, " ")`: each line break (a CRLF pair counts as
one) becomes a single space. -/
def stripBreaks : List Char → List Char
  | [] => []
  | '\r' :: '\n' :: rest => ' ' :: stripBreaks rest
  | '\r' :: rest => ' ' :: stripBreaks rest
  | '\n' :: rest => ' ' :: stripBreaks rest
  | c :: rest => c :: stripBreaks rest

/-- `cleanComment` of `handleDownloadExcel`: an empty (falsy) comment becomes
a quoted empty field; otherwise quotes are doubled, then line breaks become
spaces, then the result is wrapped in double quotes. -/
def cleanComment (c : String) : String :=
  if c = "" then "\"\""
  else "\"" ++ String.mk (stripBreaks (escapeQuotes c.data)) ++ "\""

/-- `cleanCustomer` of `handleDownloadExcel`: the customer identifier is
wrapped in double quotes verbatim (no escaping of embedded quotes). -/
def cleanCustomer (c : String) : String :=
  "\"" ++ c ++ "\""

/-- CSV header labels of `handleDownloadExcel`. -/
def headers : List String :=
  ["ID Interno", "Chamado", "Cliente", "Facilidade Abertura (1-5)",
   "Processo/Agendamento (1-5)", "Solução Técnica (1-5)", "Comentário",
   "Data/Hora"]

/-- One data row of the export: the eight fields joined by semicolons. -/
def csvDataRow (row : SurveyResponse) : String :=
  String.intercalate ";"
    [row.id, row.ticketId, cleanCustomer row.customerId,
     toString row.easeRating, toString row.processRating,
     toString row.solutionRating, cleanComment row.comment, row.timestamp]

/-- `csvRows`: the header row followed by one data row per record. -/
def csvRows (filteredData : List SurveyResponse) : List String :=
  String.intercalate ";" headers :: filteredData.map csvDataRow

/-- `handleDownloadExcel`: refuses an empty filtered set (alert, no file);
otherwise produces the BOM-prefixed newline-joined CSV text. -/
def handleDownloadExcel (filteredData : List SurveyResponse) : Option String :=
  if filteredData.length = 0 then none
  else some ("\uFEFF" ++ String.intercalate "\n" (csvRows filteredData))

/-- Rendering of a data row following the claim's words: both free-text
fields — the comment and the customer identifier — wrapped in double quotes
with embedded double quotes doubled, and line breaks inside the comment
turned into spaces. -/
def claimCsvRow (row : SurveyResponse) : String :=
  String.intercalate ";"
    [row.id, row.ticketId,
     "\"" ++ String.mk (escapeQuotes row.customerId.data) ++ "\"",
     toString row.easeRating, toString row.processRating,
     toString row.solutionRating,
     "\"" ++ String.mk (stripBreaks (escapeQuotes row.comment.data)) ++ "\"",
     row.timestamp]

/-- Rendering of a data row following the amended claim: the comment is
quoted with embedded quotes doubled and line breaks turned into spaces, while
the customer identifier is quoted verbatim, without escaping. -/
def claimCsvRowAmended (row : SurveyResponse) : String :=
  String.intercalate ";"
    [row.id, row.ticketId, "\"" ++ row.customerId ++ "\"",
     toString row.easeRating, toString row.processRating,
     toString row.solutionRating,
     "\"" ++ String.mk (stripBreaks (escapeQuotes row.comment.data)) ++ "\"",
     row.timestamp]

end Dashboard

/-- Scenario record for ticket "1001" with first-dimension rating 4. -/
def rec1001 : SurveyResponse :=
  { id := "u1", ticketId := "1001", customerId := "user1@mail.com",
    easeRating := 4, processRating := 5, solutionRating := 5,
    comment := "ok", timestamp := "t-u1" }

/-- Scenario record for ticket "1024" with first-dimension rating 2. -/
def rec1024 : SurveyResponse :=
  { id := "u2", ticketId := "1024", customerId := "user2@mail.com",
    easeRating := 2, processRating := 3, solutionRating := 4,
    comment := "", timestamp := "t-u2" }

/-- Scenario record for ticket "1035" with first-dimension rating 5. -/
def rec1035 : SurveyResponse :=
  { id := "u3", ticketId := "1035", customerId := "user3@mail.com",
    easeRating := 5, processRating := 5, solutionRating := 5,
    comment := "bom", timestamp := "t-u3" }

/-- Store state after inserting the three scenario records into an empty
local store through `add`. -/
def scenarioStore : LocalStore :=
  (DatabaseService.add rec1035
    (DatabaseService.add rec1024
      (DatabaseService.add rec1001 (some [])).2).2).2

/-- Claim C1: after `clear`, the stored collection is empty; on the
`dbService` variants (seeding keyed on key absence) `getAll` then returns the
empty collection, but `DatabaseService.getAll` (seeding keyed on emptiness of
the parsed collection) re-seeds and returns the seed set. -/
theorem C1_clear_then_getAll (s : LocalStore) :
    (DatabaseService.clear s).2 = some [] ∧
    (dbService.getAll (dbService.clear s).2).1 = [] ∧
    (dbService.getAll (dbService.clear s).2).2 = some [] ∧
    (DatabaseService.getAll (DatabaseService.clear s).2).1 =
      DatabaseService.SEED_DATA := by
  exact ⟨rfl, rfl, rfl, rfl⟩

/-- Claim C1 counterexample: on `DatabaseService` (src/services/database/
index.ts), `clear` followed by `getAll` returns the non-empty seed set, not
the empty collection. -/
theorem C1_counterexample :
    (DatabaseService.getAll
        (DatabaseService.clear (some DatabaseService.SEED_DATA)).2).1 =
      DatabaseService.SEED_DATA ∧
    DatabaseService.SEED_DATA ≠ ([] : List SurveyResponse) := by
  refine ⟨rfl, ?_⟩
  simp [DatabaseService.SEED_DATA]

/-- Claim C2 (amended): on remote failure (`unreachable` fetch, non-success
status, or non-array payload) the cloud `getAll` of index.ts catches the
error and resolves successfully with the empty list, the SurveyForm variant
silently falls back to the locally stored data, and neither variant ever
propagates an error to the caller. -/
theorem C2_cloud_failure_behavior :
    getAllCloud RemoteResult.unreachable = Except.ok [] ∧
    getAllCloud RemoteResult.httpError = Except.ok [] ∧
    getAllCloud RemoteResult.nonArray = Except.ok [] ∧
    (∀ l, getAllCloud (RemoteResult.arrayPayload l) = Except.ok l) ∧
    (∀ s, getAllCloudFallback RemoteResult.unreachable s =
      Except.ok (DatabaseService.getLocalData s)) ∧
    (∀ s, getAllCloudFallback RemoteResult.httpError s =
      Except.ok (DatabaseService.getLocalData s)) ∧
    (∀ rr, ∀ e : DBError, getAllCloud rr ≠ Except.error e) ∧
    (∀ rr s, ∀ e : DBError, getAllCloudFallback rr s ≠ Except.error e) := by
  refine ⟨rfl, rfl, rfl, fun l => rfl, fun s => rfl, fun s => rfl, ?_, ?_⟩
  · intro rr e
    cases rr <;> simp [getAllCloud]
  · intro rr s e
    cases rr <;> simp [getAllCloudFallback]

/-- Claim C2 counterexample: with the remote backend unreachable, the cloud
`getAll` resolves successfully with a fabricated empty list (index.ts) or the
locally cached records (SurveyForm variant) instead of failing with a
connection error. -/
theorem C2_counterexample :
    getAllCloud RemoteResult.unreachable = Except.ok [] ∧
    getAllCloudFallback RemoteResult.unreachable
        (some DatabaseService.SEED_DATA) =
      Except.ok DatabaseService.SEED_DATA ∧
    getAllCloud RemoteResult.unreachable ≠
      Except.error DBError.connectionError := by
  refine ⟨rfl, rfl, ?_⟩
  simp [getAllCloud]

/-- Claim C7: on the local backend `remove` reports success for every id and
every store state — `DatabaseService.remove` and `dbService.remove` both
always return `true` — and on an empty collection the operation is a no-op
that still succeeds. -/
theorem C7_remove_always_succeeds (s : LocalStore) (i : String) :
    (DatabaseService.remove i s).1 = true ∧
    (dbService.remove i s).1 = true ∧
    (DatabaseService.getLocalData s = [] →
      DatabaseService.getLocalData (DatabaseService.remove i s).2 = []) := by
  refine ⟨rfl, rfl, fun h => ?_⟩
  simp [DatabaseService.remove, DatabaseService.getLocalData,
    DatabaseService.setLocalData, h] at h ⊢
  simp [DatabaseService.getLocalData, h]

/-- Claim C7 witness: removing a non-existent id from an empty collection is
a no-op that reports success. -/
theorem C7_witness :
    DatabaseService.getLocalData
        (DatabaseService.remove "zzz" (some [])).2 = [] :=
  (C7_remove_always_succeeds (some []) "zzz").2.2 rfl

/-- Scanning a list filtered by `item.id != i` for `x.id == i` finds
nothing. -/
theorem any_id_filter_ne (L : List SurveyResponse) (i : String) :
    ((L.filter (fun item => item.id != i)).any (fun x => x.id == i)) =
      false := by
  induction L with
  | nil => rfl
  | cons a t ih =>
    by_cases h : a.id = i
    · simp [List.filter_cons, h, ih]
    · simp [List.filter_cons, h, ih]

/-- Record whose id collides with the first seed record's id. -/
def seedIdRecord : SurveyResponse :=
  { id := "1", ticketId := "2001", customerId := "x@mail.com",
    easeRating := 5, processRating := 5, solutionRating := 5,
    comment := "", timestamp := "t-x" }

/-- Fresh record whose id is distinct from every seed id. -/
def freshRecord : SurveyResponse :=
  { id := "abc", ticketId := "777", customerId := "y@mail.com",
    easeRating := 3, processRating := 4, solutionRating := 5,
    comment := "", timestamp := "t-y" }

/-- Claim C3 (amended): for every prior local store state and every record
whose id differs from the seed ids "1", "2" and "3", inserting the record,
removing its id, and reading back yields no record with that id; the provisos
are needed because `getAll` re-seeds an emptied collection. -/
theorem C3_add_remove_getAll (s : LocalStore) (r : SurveyResponse)
    (h1 : r.id ≠ "1") (h2 : r.id ≠ "2") (h3 : r.id ≠ "3") :
    (((DatabaseService.getAll
        (DatabaseService.remove r.id
          (DatabaseService.add r s).2).2).1).any
      (fun x => x.id == r.id)) = false := by
  simp only [DatabaseService.add, DatabaseService.remove,
    DatabaseService.setLocalData, DatabaseService.getAll,
    DatabaseService.getLocalData, Option.getD_some]
  set L := (s.getD [] ++ [r]).filter (fun item => item.id != r.id) with hL
  by_cases hlen : L.length = 0
  · simp only [hlen, if_pos rfl]
    simp [DatabaseService.SEED_DATA, List.any_cons,
      beq_eq_false_iff_ne, Ne.symm h1, Ne.symm h2, Ne.symm h3]
  · simp only [hlen, if_neg hlen]
    exact any_id_filter_ne _ _

/-- Claim C3 witness: inserting a record with a fresh id into an empty store,
then removing it, leaves no record with that id visible. -/
theorem C3_witness :
    (((DatabaseService.getAll
        (DatabaseService.remove freshRecord.id
          (DatabaseService.add freshRecord (some [])).2).2).1).any
      (fun x => x.id == freshRecord.id)) = false :=
  C3_add_remove_getAll (some []) freshRecord (by decide) (by decide)
    (by decide)

/-- Claim C3 counterexample: the record with id "1" is inserted into an empty
store and removed, yet the subsequent `getAll` re-seeds the emptied
collection and returns a (seed) record with id "1". -/
theorem C3_counterexample :
    (((DatabaseService.getAll
        (DatabaseService.remove "1"
          (DatabaseService.add seedIdRecord (some [])).2).2).1).any
      (fun x => x.id == "1")) = true := by
  decide

/-- Claim C6: on any store whose parsed collection is empty, `getAll` persists
and returns the seed set; an immediately following `getAll` returns the same
seed records exactly once each without re-seeding or duplicating; and no
seeding happens on a non-empty collection. -/
theorem C6_seed_idempotent (s : LocalStore)
    (h : DatabaseService.getLocalData s = []) :
    DatabaseService.getAll s =
      (DatabaseService.SEED_DATA, some DatabaseService.SEED_DATA) ∧
    DatabaseService.getAll (DatabaseService.getAll s).2 =
      (DatabaseService.SEED_DATA, some DatabaseService.SEED_DATA) ∧
    (∀ r ∈ (DatabaseService.getAll (DatabaseService.getAll s).2).1,
      ((DatabaseService.getAll (DatabaseService.getAll s).2).1.count r)
        = 1) ∧
    (∀ s₂, DatabaseService.getLocalData s₂ ≠ [] →
      DatabaseService.getAll s₂ = (DatabaseService.getLocalData s₂, s₂)) := by
  have h₁ : DatabaseService.getAll s =
      (DatabaseService.SEED_DATA, some DatabaseService.SEED_DATA) := by
    simp [DatabaseService.getAll, DatabaseService.setLocalData, h]
  refine ⟨h₁, ?_, ?_, ?_⟩
  · rw [h₁]
    rfl
  · rw [h₁]
    intro r hr
    exact List.count_eq_one_of_mem (by decide) hr
  · intro s₂ h₂
    simp [DatabaseService.getAll, List.length_eq_zero, h₂]

/-- Claim C6 witness: the first access on a fresh (absent-key) store seeds
and returns the seed set. -/
theorem C6_witness :
    DatabaseService.getAll none =
      (DatabaseService.SEED_DATA, some DatabaseService.SEED_DATA) :=
  (C6_seed_idempotent none rfl).1

/-- Claim C10: on any store whose parsed collection is empty,
`checkTicketExists` seeds the store via `getAll` and answers `true` for the
seed ticket ids "1001", "1024" and "1035"; consequently the Duplicate Guard
rejects the first real submission for any of those tickets on a fresh
store. -/
theorem C10_seed_tickets_blocked (s : LocalStore)
    (h : DatabaseService.getLocalData s = []) :
    (DatabaseService.checkTicketExists "1001" s).1 = true ∧
    (DatabaseService.checkTicketExists "1024" s).1 = true ∧
    (DatabaseService.checkTicketExists "1035" s).1 = true ∧
    (DatabaseService.checkTicketExists "1001" s).2 =
      some DatabaseService.SEED_DATA ∧
    (∀ r : SurveyResponse, r.ticketId = "1001" →
      (submitWithGuard r s).1 = SubmitOutcome.rejectedDuplicate) := by
  have h₁ : DatabaseService.getAll s =
      (DatabaseService.SEED_DATA, some DatabaseService.SEED_DATA) := by
    simp [DatabaseService.getAll, DatabaseService.setLocalData, h]
  have hchk : ∀ t : String, DatabaseService.checkTicketExists t s =
      (DatabaseService.SEED_DATA.any
          (fun record => record.ticketId == jsTrim t),
        some DatabaseService.SEED_DATA) := by
    intro t
    simp [DatabaseService.checkTicketExists, h₁]
  have hc : (DatabaseService.SEED_DATA.any
      (fun record => record.ticketId == jsTrim "1001")) = true := by decide
  refine ⟨?_, ?_, ?_, ?_, ?_⟩
  · rw [hchk]; decide
  · rw [hchk]; decide
  · rw [hchk]; decide
  · rw [hchk]
  · intro r hr
    simp only [submitWithGuard, hr, hchk, hc]
    simp

/-- Claim C10 witness: on a fresh store with the key absent, the duplicate
check answers `true` for seed ticket "1001". -/
theorem C10_witness :
    (DatabaseService.checkTicketExists "1001" none).1 = true :=
  (C10_seed_tickets_blocked none rfl).1

/-- Second record for ticket "1001", distinct from `rec1001`. -/
def dupRecord : SurveyResponse :=
  { id := "u9", ticketId := "1001", customerId := "dup@mail.com",
    easeRating := 1, processRating := 1, solutionRating := 1,
    comment := "", timestamp := "t-u9" }

/-- Claim C4: `checkTicketExists t` answers exactly whether some record
returned by `getAll` has `ticketId` equal to the trimmed `t`; after inserting
the scenario records, ticket "1001" is reported as existing and "9999" as
not, and the Duplicate Guard rejects a second record whose `ticketId` equals
an already-inserted one. -/
theorem C4_checkTicketExists_spec :
    (∀ t s, (DatabaseService.checkTicketExists t s).1 =
      ((DatabaseService.getAll s).1.any
        (fun record => record.ticketId == jsTrim t))) ∧
    (DatabaseService.checkTicketExists "1001" scenarioStore).1 = true ∧
    (DatabaseService.checkTicketExists "9999" scenarioStore).1 = false ∧
    (∀ r₂ : SurveyResponse, r₂.ticketId = "1001" →
      (submitWithGuard r₂ scenarioStore).1 =
        SubmitOutcome.rejectedDuplicate) := by
  have hc : DatabaseService.checkTicketExists "1001" scenarioStore =
      (true, scenarioStore) := by decide
  refine ⟨fun t s => rfl, by decide, by decide, ?_⟩
  intro r₂ hr
  simp only [submitWithGuard, hr, hc]
  simp

/-- Claim C4 witness: a concrete second record for ticket "1001" is rejected
by the Duplicate Guard after the scenario inserts. -/
theorem C4_witness :
    (submitWithGuard dupRecord scenarioStore).1 =
      SubmitOutcome.rejectedDuplicate :=
  C4_checkTicketExists_spec.2.2.2 dupRecord rfl

/-- Claim C5: for every local store state and record, `add` returns the
record itself and persists exactly the previous collection with the record
appended — every previously stored record keeps its position, the new record
is last, and the same holds for the `dbService` variant. -/
theorem C5_add_frame (s : LocalStore) (r : SurveyResponse) :
    (DatabaseService.add r s).1 = r ∧
    DatabaseService.getLocalData (DatabaseService.add r s).2 =
      DatabaseService.getLocalData s ++ [r] ∧
    (DatabaseService.getLocalData (DatabaseService.add r s).2).getLast? =
      some r ∧
    (∀ i, i < (DatabaseService.getLocalData s).length →
      (DatabaseService.getLocalData (DatabaseService.add r s).2)[i]? =
        (DatabaseService.getLocalData s)[i]?) ∧
    (dbService.add r s).1 = r ∧
    (dbService.add r s).2 = some (s.getD [] ++ [r]) := by
  refine ⟨rfl, rfl, ?_, ?_, rfl, rfl⟩
  · simp [DatabaseService.add, DatabaseService.getLocalData,
      DatabaseService.setLocalData]
  · intro i hi
    have hi₂ : i < (Option.getD s []).length := hi
    simp only [DatabaseService.add, DatabaseService.getLocalData,
      DatabaseService.setLocalData, Option.getD_some]
    rw [List.getElem?_append, if_pos hi₂]

/-- Claim C5 witness: appending a record to a one-record store leaves the
record at index 0 unchanged. -/
theorem C5_witness :
    (DatabaseService.getLocalData
        (DatabaseService.add rec1024 (some [rec1001])).2)[0]? =
      (DatabaseService.getLocalData (some [rec1001]))[0]? :=
  (C5_add_frame (some [rec1001]) rec1024).2.2.2.1 0 (by decide)

/-- Claim C9: after inserting the three scenario records (first-dimension
ratings 4, 2, 5) into an empty local store, `getAll` returns exactly those
three records in insertion order, and the computed first-dimension average is
the exact rational 11/3, which lies in the half-open interval that rounds to
3.67 at two decimal places. -/
theorem C9_scenario_average :
    (DatabaseService.getAll scenarioStore).1 = [rec1001, rec1024, rec1035] ∧
    Dashboard.metricsTotal (DatabaseService.getAll scenarioStore).1 = 3 ∧
    Dashboard.metricsAvgEase (DatabaseService.getAll scenarioStore).1 =
      11 / 3 ∧
    (367 : ℚ) / 100 - 1 / 200 ≤
      Dashboard.metricsAvgEase (DatabaseService.getAll scenarioStore).1 ∧
    Dashboard.metricsAvgEase (DatabaseService.getAll scenarioStore).1 <
      (367 : ℚ) / 100 + 1 / 200 := by
  have h1 : (DatabaseService.getAll scenarioStore).1 =
      [rec1001, rec1024, rec1035] := by decide
  have h2 : Dashboard.metricsAvgEase [rec1001, rec1024, rec1035] =
      11 / 3 := by
    simp [Dashboard.metricsAvgEase, rec1001, rec1024, rec1035]
    norm_num
  refine ⟨h1, by rw [h1]; rfl, by rw [h1, h2], ?_, ?_⟩
  · rw [h1, h2]; norm_num
  · rw [h1, h2]; norm_num

/-- The empty-comment special case of `cleanComment` coincides with the
general quote-double-then-strip rendering, so the rendering law holds for
every comment. -/
theorem cleanComment_eq (c : String) :
    Dashboard.cleanComment c =
      "\"" ++
        String.mk (Dashboard.stripBreaks (Dashboard.escapeQuotes c.data)) ++
        "\"" := by
  by_cases h : c = ""
  · subst h
    rfl
  · simp [Dashboard.cleanComment, h]

/-- Record whose customer identifier contains an embedded double quote. -/
def quotedCustomerRecord : SurveyResponse :=
  { id := "9", ticketId := "77", customerId := "ana \"a\" lima",
    easeRating := 3, processRating := 3, solutionRating := 3,
    comment := "ok", timestamp := "t9" }

/-- Claim C8 counterexample: for a record whose customer identifier contains
a double quote, the exported row leaves that quote undoubled, so it differs
from the claimed rendering in which both free-text fields have embedded
quotes doubled. -/
theorem C8_counterexample :
    Dashboard.csvDataRow quotedCustomerRecord ≠
      Dashboard.claimCsvRow quotedCustomerRecord := by
  decide

/-- Claim C8 (amended): for every non-empty filtered record set the export
produces the header row plus exactly one data row per record, fields joined
by semicolons; the comment is wrapped in double quotes with embedded quotes
doubled and line breaks turned into spaces, while the customer identifier is
wrapped in double quotes verbatim, without escaping embedded quotes. -/
theorem C8_csv_shape (l : List SurveyResponse) (h : l ≠ []) :
    Dashboard.handleDownloadExcel l =
      some ("\uFEFF" ++ String.intercalate "\n" (Dashboard.csvRows l)) ∧
    Dashboard.csvRows l =
      String.intercalate ";" Dashboard.headers ::
        l.map Dashboard.csvDataRow ∧
    (Dashboard.csvRows l).length = l.length + 1 ∧
    (∀ row, Dashboard.csvDataRow row = Dashboard.claimCsvRowAmended row) := by
  refine ⟨?_, rfl, by simp [Dashboard.csvRows], ?_⟩
  · simp [Dashboard.handleDownloadExcel, List.length_eq_zero, h]
  · intro row
    simp [Dashboard.csvDataRow, Dashboard.claimCsvRowAmended,
      Dashboard.cleanCustomer, cleanComment_eq]

/-- Claim C8 witness: the export of a one-record set has exactly a header row
and one data row. -/
theorem C8_witness :
    (Dashboard.csvRows [rec1001]).length = [rec1001].length + 1 :=
  (C8_csv_shape [rec1001] (by decide)).2.2.1

end TicketTrack
